import Mathlib

/-!
# raylib_quickstart: the call trace of `main`

`src/main.cpp` is one function, `main`, that only calls into raylib, rlImGui and
Dear ImGui.  Its observable behaviour is the sequence of library calls it makes
(with their arguments) and its exit code.

The libraries are not part of the repository, so they are a parameter of the
embedding: a `Lib σ` gives, for every library function `main` calls, its effect
on an arbitrary library state `σ` and the value it hands back.  `main` is then a
state-passing function that threads the library state through the calls in
program order and logs every call.  The `while` loop is run with a bound on the
number of `WindowShouldClose` polls; a run that uses up the bound has not
returned (`exit = none`) and has logged the calls made so far.
-/

set_option linter.unusedVariables false

namespace RaylibQuickstart

/-! ## Data model -/

/-- Modelled from the spec: a colour ("a fixed color").  The type `Color` is
declared in `raylib.h`, which the repository does not hold; a colour is taken
as its four channels. -/
structure Color where
  r : Nat
  g : Nat
  b : Nat
  a : Nat
  deriving DecidableEq

/-- The macros `main` uses whose definitions live in library headers
(`raylib.h`, `IconsFontAwesome6.h`): they are parameters of the embedding. -/
structure Consts where
  RAYWHITE : Color
  BLACK : Color
  ICON_FA_JEDI : String
  deriving DecidableEq

/-- The library functions called by `main`. -/
inductive Fn where
  | InitWindow
  | SetTargetFPS
  | rlImGuiSetup
  | WindowShouldClose
  | BeginDrawing
  | ClearBackground
  | rlImGuiBegin
  | ShowDemoWindow
  | Begin
  | TextUnformatted
  | End
  | DrawText
  | rlImGuiEnd
  | EndDrawing
  | rlImGuiShutdown
  | CloseWindow
  deriving DecidableEq

/-- One library call with its arguments.  For the two calls that take `&open`
the argument recorded is the value `open` holds at the moment of the call. -/
inductive Call where
  | InitWindow (width height : Int) (title : String)
  | SetTargetFPS (fps : Int)
  | rlImGuiSetup (darkTheme : Bool)
  | WindowShouldClose
  | BeginDrawing
  | ClearBackground (color : Color)
  | rlImGuiBegin
  | ShowDemoWindow (p_open : Bool)
  | Begin (name : String) (p_open : Bool)
  | TextUnformatted (text : String)
  | End
  | DrawText (text : String) (posX posY fontSize : Int) (color : Color)
  | rlImGuiEnd
  | EndDrawing
  | rlImGuiShutdown
  | CloseWindow
  deriving DecidableEq

/-- The function a call is a call of. -/
def Call.fn : Call → Fn
  | .InitWindow _ _ _ => Fn.InitWindow
  | .SetTargetFPS _ => Fn.SetTargetFPS
  | .rlImGuiSetup _ => Fn.rlImGuiSetup
  | .WindowShouldClose => Fn.WindowShouldClose
  | .BeginDrawing => Fn.BeginDrawing
  | .ClearBackground _ => Fn.ClearBackground
  | .rlImGuiBegin => Fn.rlImGuiBegin
  | .ShowDemoWindow _ => Fn.ShowDemoWindow
  | .Begin _ _ => Fn.Begin
  | .TextUnformatted _ => Fn.TextUnformatted
  | .End => Fn.End
  | .DrawText _ _ _ _ _ => Fn.DrawText
  | .rlImGuiEnd => Fn.rlImGuiEnd
  | .EndDrawing => Fn.EndDrawing
  | .rlImGuiShutdown => Fn.rlImGuiShutdown
  | .CloseWindow => Fn.CloseWindow

/-- The value of `open` a panel call was handed, for the calls that take `&open`. -/
def Call.p_open? : Call → Option Bool
  | .ShowDemoWindow o => some o
  | .Begin _ o => some o
  | _ => none

/-- A model of the libraries over a library state `σ`.  Every function maps the
state before the call to the state after it.  `WindowShouldClose` also gives its
answer; `ShowDemoWindow` is given the value of `*p_open` and gives the value it
leaves there; `Begin` gives its answer and the value it leaves in `*p_open`.
Whether `InitWindow` or `rlImGuiSetup` succeeded is part of `σ`. -/
structure Lib (σ : Type) where
  InitWindow : Int → Int → String → σ → σ
  SetTargetFPS : Int → σ → σ
  rlImGuiSetup : Bool → σ → σ
  WindowShouldClose : σ → Bool × σ
  BeginDrawing : σ → σ
  ClearBackground : Color → σ → σ
  rlImGuiBegin : σ → σ
  ShowDemoWindow : Bool → σ → Bool × σ
  Begin : String → Bool → σ → (Bool × Bool) × σ
  TextUnformatted : String → σ → σ
  End : σ → σ
  DrawText : String → Int → Int → Int → Color → σ → σ
  rlImGuiEnd : σ → σ
  EndDrawing : σ → σ
  rlImGuiShutdown : σ → σ
  CloseWindow : σ → σ

/-- The state of a run: the library state, the calls made so far in program
order, and the answers the libraries have given so far to `WindowShouldClose`
and to `ImGui::Begin`. -/
structure World (σ : Type) where
  lib : σ
  trace : List Call
  closeAnswers : List Bool
  beginAnswers : List Bool

/-- The state in which `main` is entered: nothing called, nothing answered. -/
def World.start {σ : Type} (s : σ) : World σ :=
  { lib := s, trace := [], closeAnswers := [], beginAnswers := [] }

/-- A call whose result `main` does not use (every `void` function). -/
def World.call {σ : Type} (w : World σ) (c : Call) (f : σ → σ) : World σ :=
  { w with lib := f w.lib, trace := w.trace ++ [c] }

/-- `WindowShouldClose()`: the answer and the state after the call. -/
def World.WindowShouldClose {σ : Type} (L : Lib σ) (w : World σ) : Bool × World σ :=
  ((L.WindowShouldClose w.lib).1,
   { w with lib := (L.WindowShouldClose w.lib).2,
            trace := w.trace ++ [Call.WindowShouldClose],
            closeAnswers := w.closeAnswers ++ [(L.WindowShouldClose w.lib).1] })

/-- `ImGui::ShowDemoWindow(&open)`: the value left in `open` and the state after
the call. -/
def World.ShowDemoWindow {σ : Type} (L : Lib σ) (w : World σ) (open_ : Bool) :
    Bool × World σ :=
  ((L.ShowDemoWindow open_ w.lib).1,
   { w with lib := (L.ShowDemoWindow open_ w.lib).2,
            trace := w.trace ++ [Call.ShowDemoWindow open_] })

/-- `ImGui::Begin(name, &open)`: the answer, the value left in `open`, and the
state after the call. -/
def World.Begin {σ : Type} (L : Lib σ) (w : World σ) (name : String) (open_ : Bool) :
    (Bool × Bool) × World σ :=
  ((L.Begin name open_ w.lib).1,
   { w with lib := (L.Begin name open_ w.lib).2,
            trace := w.trace ++ [Call.Begin name open_],
            beginAnswers := w.beginAnswers ++ [(L.Begin name open_ w.lib).1.1] })

/-! ## The program -/

/-- The body of the `while` loop of `main` (main.cpp lines 18-36). -/
def frame {σ : Type} (L : Lib σ) (K : Consts) (w : World σ) : World σ :=
  let w := w.call Call.BeginDrawing L.BeginDrawing
  let w := w.call (Call.ClearBackground K.RAYWHITE) (L.ClearBackground K.RAYWHITE)
  let w := w.call Call.rlImGuiBegin L.rlImGuiBegin
  let open_ := true
  let r := w.ShowDemoWindow L open_
  let open_ := r.1
  let w := r.2
  let open_ := true
  let r := w.Begin L "Hello" open_
  let open_ := r.1.2
  let w := r.2
  let w := if r.1.1 then
      w.call (Call.TextUnformatted K.ICON_FA_JEDI) (L.TextUnformatted K.ICON_FA_JEDI)
    else w
  let w := w.call Call.End L.End
  let w := w.call (Call.DrawText "It works!" 20 20 20 K.BLACK)
    (L.DrawText "It works!" 20 20 20 K.BLACK)
  let w := w.call Call.rlImGuiEnd L.rlImGuiEnd
  let w := w.call Call.EndDrawing L.EndDrawing
  w

/-- The loop `while (!WindowShouldClose()) { ... }` (main.cpp lines 16-37), run
for at most `fuel` polls.  The Boolean tells whether the loop was left (the poll
answered true) or the bound was used up. -/
def loop {σ : Type} (L : Lib σ) (K : Consts) : Nat → World σ → World σ × Bool
  | 0, w => (w, false)
  | fuel + 1, w =>
    let r := w.WindowShouldClose L
    if !r.1 then loop L K fuel (frame L K r.2) else (r.2, true)

/-- The calls before the loop (main.cpp lines 8-14). -/
def setup {σ : Type} (L : Lib σ) (w : World σ) : World σ :=
  let screenWidth : Int := 800
  let screenHeight : Int := 600
  let w := w.call (Call.InitWindow screenWidth screenHeight "raylib basic window")
    (L.InitWindow screenWidth screenHeight "raylib basic window")
  let w := w.call (Call.SetTargetFPS 120) (L.SetTargetFPS 120)
  let w := w.call (Call.rlImGuiSetup true) (L.rlImGuiSetup true)
  w

/-- The outcome of a run of `main`: the final state, and the exit code if `main`
returned (`none` when the bound on polls was used up with the loop running). -/
structure Run (σ : Type) where
  world : World σ
  exit : Option Int

/-- The function `main` (main.cpp lines 6-42), its loop run for at most `fuel`
polls of `WindowShouldClose`, entered with the libraries in state `s`. -/
def main {σ : Type} (L : Lib σ) (K : Consts) (fuel : Nat) (s : σ) : Run σ :=
  let w := setup L (World.start s)
  let r := loop L K fuel w
  if r.2 then
    let w := r.1.call Call.rlImGuiShutdown L.rlImGuiShutdown
    let w := w.call Call.CloseWindow L.CloseWindow
    { world := w, exit := some 0 }
  else
    { world := r.1, exit := none }

/-- The state of the run just before poll number `i` of `WindowShouldClose`
(counting from 0), while the loop is still running. -/
def worldAtPoll {σ : Type} (L : Lib σ) (K : Consts) (s : σ) : Nat → World σ
  | 0 => setup L (World.start s)
  | i + 1 => frame L K ((worldAtPoll L K s i).WindowShouldClose L).2

/-- The answer the libraries give to poll number `i` of `WindowShouldClose`. -/
def closeAt {σ : Type} (L : Lib σ) (K : Consts) (s : σ) (i : Nat) : Bool :=
  ((worldAtPoll L K s i).WindowShouldClose L).1

/-- The answer `ImGui::Begin` gives in the frame run from the state `w`. -/
def beginAnswer {σ : Type} (L : Lib σ) (K : Consts) (w : World σ) : Bool :=
  (L.Begin "Hello" true
    (L.ShowDemoWindow true
      (L.rlImGuiBegin (L.ClearBackground K.RAYWHITE (L.BeginDrawing w.lib)))).2).1.1

/-! ## Concrete library models -/

/-- A scripted run: what the libraries answer in frame `i` (frames counted from
0; poll `i` is the poll made before frame `i`). -/
structure Script where
  shouldClose : Nat → Bool
  begin : Nat → Bool
  demoOpen : Nat → Bool
  beginOpen : Nat → Bool

/-- The library model that follows a script.  Its state is the number of frames
presented so far (`EndDrawing` calls). -/
def scripted (A : Script) : Lib Nat where
  InitWindow := fun _ _ _ n => n
  SetTargetFPS := fun _ n => n
  rlImGuiSetup := fun _ n => n
  WindowShouldClose := fun n => (A.shouldClose n, n)
  BeginDrawing := fun n => n
  ClearBackground := fun _ n => n
  rlImGuiBegin := fun n => n
  ShowDemoWindow := fun _ n => (A.demoOpen n, n)
  Begin := fun _ _ n => ((A.begin n, A.beginOpen n), n)
  TextUnformatted := fun _ n => n
  End := fun n => n
  DrawText := fun _ _ _ _ _ n => n
  rlImGuiEnd := fun n => n
  EndDrawing := fun n => n + 1
  rlImGuiShutdown := fun n => n
  CloseWindow := fun n => n

/-- The state of `noWindow`: whether a window exists, whether the GUI context
exists, and the number of polls answered. -/
structure Headless where
  windowReady : Bool
  guiReady : Bool
  polls : Nat
  deriving DecidableEq

/-- A library model in which `InitWindow` and `rlImGuiSetup` fail (no window and
no GUI context come to exist), the panels always clear `*p_open`, `Begin`
answers false from the second frame on, and the close request comes at poll
`closeAfter`. -/
def noWindow (closeAfter : Nat) : Lib Headless where
  InitWindow := fun _ _ _ s => { s with windowReady := false }
  SetTargetFPS := fun _ s => s
  rlImGuiSetup := fun _ s => { s with guiReady := false }
  WindowShouldClose := fun s => (decide (closeAfter ≤ s.polls), { s with polls := s.polls + 1 })
  BeginDrawing := fun s => s
  ClearBackground := fun _ s => s
  rlImGuiBegin := fun s => s
  ShowDemoWindow := fun _ s => (false, s)
  Begin := fun _ _ s => ((decide (s.polls ≤ 1), false), s)
  TextUnformatted := fun _ s => s
  End := fun s => s
  DrawText := fun _ _ _ _ _ s => s
  rlImGuiEnd := fun s => s
  EndDrawing := fun s => s
  rlImGuiShutdown := fun s => s
  CloseWindow := fun s => { s with windowReady := false, guiReady := false }

/-- The values the three macros have in raylib 5 and Font Awesome 6 headers:
used to run `main` on concrete inputs. -/
def headerConsts : Consts where
  RAYWHITE := { r := 245, g := 245, b := 245, a := 255 }
  BLACK := { r := 0, g := 0, b := 0, a := 255 }
  ICON_FA_JEDI := "\uf669"

/-- A script: the close request comes at poll 2, `ImGui::Begin` answers true in
frame 0 only, and both panels leave `*p_open` set. -/
def closeAtTwo : Script where
  shouldClose := fun i => decide (2 ≤ i)
  begin := fun i => decide (i = 0)
  demoOpen := fun _ => true
  beginOpen := fun _ => true

/-- A script whose first poll already answers true. -/
def closeAtOnce : Script where
  shouldClose := fun _ => true
  begin := fun _ => true
  demoOpen := fun _ => true
  beginOpen := fun _ => true

/-- The state `noWindow` is entered in. -/
def headless : Headless :=
  { windowReady := false, guiReady := false, polls := 0 }

/-! ## The shape of a trace, as the specification words it -/

/-- Initialisation: window, target frame rate, GUI overlay. -/
def setupCalls : List Call :=
  [Call.InitWindow 800 600 "raylib basic window", Call.SetTargetFPS 120,
   Call.rlImGuiSetup true]

/-- The calls of one frame in which `ImGui::Begin` answers `b`. -/
def frameCalls (K : Consts) (b : Bool) : List Call :=
  [Call.BeginDrawing, Call.ClearBackground K.RAYWHITE, Call.rlImGuiBegin,
   Call.ShowDemoWindow true, Call.Begin "Hello" true]
  ++ (if b then [Call.TextUnformatted K.ICON_FA_JEDI] else [])
  ++ [Call.End, Call.DrawText "It works!" 20 20 20 K.BLACK, Call.rlImGuiEnd,
      Call.EndDrawing]

/-- The calls of the loop while it keeps running: for each frame, the poll that
let it start and then the frame; `bs` are the answers of `ImGui::Begin`, one per
frame. -/
def loopCalls (K : Consts) : List Bool → List Call
  | [] => []
  | b :: bs => Call.WindowShouldClose :: (frameCalls K b ++ loopCalls K bs)

/-- The calls made from the poll that answers true on: that poll, then the
shutdown of the overlay and of the window. -/
def exitCalls : List Call :=
  [Call.WindowShouldClose, Call.rlImGuiShutdown, Call.CloseWindow]

/-- The three bracket pairs of a trace. -/
inductive Bracket where
  | Drawing
  | Gui
  | Panel
  deriving DecidableEq

/-- One step of the bracket discipline on the stack of open brackets (innermost
first); `none` when the call breaks it.  `BeginDrawing` opens only with nothing
open, `rlImGuiBegin` only directly inside a drawing frame, `ImGui::Begin` only
directly inside a GUI frame; each closing call closes the innermost open bracket
and it must be its own.  The ImGui calls need an open GUI frame, and
`ClearBackground` and `DrawText` an open drawing frame. -/
def bracketStep (st : List Bracket) (c : Call) : Option (List Bracket) :=
  match c.fn with
  | Fn.BeginDrawing => if st = [] then some [Bracket.Drawing] else none
  | Fn.EndDrawing => if st = [Bracket.Drawing] then some [] else none
  | Fn.rlImGuiBegin =>
    if st = [Bracket.Drawing] then some [Bracket.Gui, Bracket.Drawing] else none
  | Fn.rlImGuiEnd =>
    if st = [Bracket.Gui, Bracket.Drawing] then some [Bracket.Drawing] else none
  | Fn.Begin =>
    if st = [Bracket.Gui, Bracket.Drawing] then
      some [Bracket.Panel, Bracket.Gui, Bracket.Drawing]
    else none
  | Fn.End =>
    if st = [Bracket.Panel, Bracket.Gui, Bracket.Drawing] then
      some [Bracket.Gui, Bracket.Drawing]
    else none
  | Fn.ShowDemoWindow => if Bracket.Gui ∈ st then some st else none
  | Fn.TextUnformatted => if Bracket.Gui ∈ st then some st else none
  | Fn.ClearBackground => if Bracket.Drawing ∈ st then some st else none
  | Fn.DrawText => if Bracket.Drawing ∈ st then some st else none
  | _ => some st

/-- The stack of open brackets after the calls `t`, started from the stack `st`;
`none` when some call breaks the discipline. -/
def brackets (st : List Bracket) : List Call → Option (List Bracket)
  | [] => some st
  | c :: t =>
    match bracketStep st c with
    | none => none
    | some st1 => brackets st1 t

/-- The calls made inside each panel of a trace: for every `ImGui::Begin`, the
calls from it to the next `ImGui::End`, both excluded.  `cur` holds the calls of
the panel being read, `none` outside a panel. -/
def panelBodies (cur : Option (List Call)) : List Call → List (List Call)
  | [] => []
  | c :: t =>
    match cur with
    | none => if c.fn = Fn.Begin then panelBodies (some []) t else panelBodies none t
    | some body =>
      if c.fn = Fn.End then body :: panelBodies none t
      else panelBodies (some (body ++ [c])) t

/-- The number of calls of the function `f` in the calls `t`. -/
def fnCount (f : Fn) (t : List Call) : Nat :=
  (t.map Call.fn).count f

/-- The calls of a loop given the calls of each of its frames: every frame is
preceded by the poll that let it start. -/
def polled : List (List Call) → List Call
  | [] => []
  | f :: fs => Call.WindowShouldClose :: (f ++ polled fs)

/-! ## The loop body -/

section Lemmas

variable {σ : Type}

theorem frame_trace (L : Lib σ) (K : Consts) (w : World σ) :
    (frame L K w).trace = w.trace ++ frameCalls K (beginAnswer L K w) := by
  cases h : beginAnswer L K w <;>
    simp [beginAnswer] at h <;>
    simp [frame, frameCalls, World.call, World.ShowDemoWindow, World.Begin, h]

theorem frame_beginAnswers (L : Lib σ) (K : Consts) (w : World σ) :
    (frame L K w).beginAnswers = w.beginAnswers ++ [beginAnswer L K w] := by
  cases h : beginAnswer L K w <;>
    simp [beginAnswer] at h <;>
    simp [frame, World.call, World.ShowDemoWindow, World.Begin, h]

theorem frame_closeAnswers (L : Lib σ) (K : Consts) (w : World σ) :
    (frame L K w).closeAnswers = w.closeAnswers := by
  cases h : beginAnswer L K w <;>
    simp [beginAnswer] at h <;>
    simp [frame, World.call, World.ShowDemoWindow, World.Begin, h]

/-! ## The loop -/

theorem loop_zero (L : Lib σ) (K : Consts) (w : World σ) : loop L K 0 w = (w, false) := rfl

theorem loop_succ_true (L : Lib σ) (K : Consts) (fuel : Nat) (w : World σ)
    (h : (w.WindowShouldClose L).1 = true) :
    loop L K (fuel + 1) w = ((w.WindowShouldClose L).2, true) := by
  simp [loop, h]

theorem loop_succ_false (L : Lib σ) (K : Consts) (fuel : Nat) (w : World σ)
    (h : (w.WindowShouldClose L).1 = false) :
    loop L K (fuel + 1) w = loop L K fuel (frame L K (w.WindowShouldClose L).2) := by
  simp [loop, h]

/-- What a loop run adds to the logs: the Begin answers `bs` of the frames it
ran, one false close answer and one poll per frame, and at the end the poll that
answered true if the loop was left. -/
theorem loop_shape (L : Lib σ) (K : Consts) (fuel : Nat) (w : World σ) :
    ∃ bs : List Bool,
      (loop L K fuel w).1.beginAnswers = w.beginAnswers ++ bs ∧
      (loop L K fuel w).1.closeAnswers
        = w.closeAnswers ++ (List.replicate bs.length false
            ++ if (loop L K fuel w).2 then [true] else []) ∧
      (loop L K fuel w).1.trace
        = w.trace ++ (loopCalls K bs
            ++ if (loop L K fuel w).2 then [Call.WindowShouldClose] else []) ∧
      ((loop L K fuel w).2 = false → bs.length = fuel) ∧
      bs.length ≤ fuel := by
  induction fuel generalizing w with
  | zero => exact ⟨[], by simp [loop_zero, loopCalls]⟩
  | succ n ih =>
    cases h : (w.WindowShouldClose L).1
    · obtain ⟨bs, hb, hc, ht, hn, hle⟩ := ih (frame L K (w.WindowShouldClose L).2)
      rw [loop_succ_false L K n w h]
      refine ⟨beginAnswer L K (w.WindowShouldClose L).2 :: bs, ?_, ?_, ?_, ?_, ?_⟩
      · rw [hb, frame_beginAnswers]; simp [World.WindowShouldClose]
      · rw [hc, frame_closeAnswers]
        simp only [World.WindowShouldClose] at h
        simp [World.WindowShouldClose, h, List.replicate_succ]
      · rw [ht, frame_trace]; simp [World.WindowShouldClose, loopCalls]
      · intro h2; simp [hn h2]
      · simpa using hle
    · rw [loop_succ_true L K n w h]
      refine ⟨[], ?_⟩
      simp only [World.WindowShouldClose] at h
      simp [World.WindowShouldClose, loopCalls, h]

/-! ## The whole run -/

theorem setup_trace (L : Lib σ) (s : σ) : (setup L (World.start s)).trace = setupCalls := by
  simp [setup, World.call, World.start, setupCalls]

theorem setup_beginAnswers (L : Lib σ) (s : σ) :
    (setup L (World.start s)).beginAnswers = [] := by
  simp [setup, World.call, World.start]

theorem setup_closeAnswers (L : Lib σ) (s : σ) :
    (setup L (World.start s)).closeAnswers = [] := by
  simp [setup, World.call, World.start]

/-- The logs of a run of `main`, whether it returned or not, in terms of the
answers `ImGui::Begin` gave in it. -/
theorem main_shape (L : Lib σ) (K : Consts) (fuel : Nat) (s : σ) :
    (main L K fuel s).world.trace
      = setupCalls ++ (loopCalls K (main L K fuel s).world.beginAnswers
          ++ if (main L K fuel s).exit.isSome then exitCalls else []) ∧
    (main L K fuel s).world.closeAnswers
      = List.replicate (main L K fuel s).world.beginAnswers.length false
          ++ (if (main L K fuel s).exit.isSome then [true] else []) ∧
    ((main L K fuel s).exit = none ∨ (main L K fuel s).exit = some 0) ∧
    ((main L K fuel s).exit = none → (main L K fuel s).world.beginAnswers.length = fuel) ∧
    (main L K fuel s).world.beginAnswers.length ≤ fuel := by
  obtain ⟨bs, hb, hc, ht, hn, hle⟩ := loop_shape L K fuel (setup L (World.start s))
  rw [setup_beginAnswers] at hb
  rw [setup_closeAnswers] at hc
  rw [setup_trace] at ht
  cases h : (loop L K fuel (setup L (World.start s))).2
  · have hm : main L K fuel s
        = { world := (loop L K fuel (setup L (World.start s))).1, exit := none } := by
      simp [main, h]
    rw [hm]
    simp only [h] at hc ht
    simp [hb, hc, ht, hn h, hle]
  · have hm : main L K fuel s
        = { world := ((loop L K fuel (setup L (World.start s))).1.call
                        Call.rlImGuiShutdown L.rlImGuiShutdown).call
                        Call.CloseWindow L.CloseWindow,
            exit := some 0 } := by
      simp [main, h]
    rw [hm]
    simp only [h] at hc ht
    simp [World.call, hb, hc, ht, exitCalls, hle]

/-! ## Runs in which the close request comes -/

theorem worldAtPoll_beginAnswers_length (L : Lib σ) (K : Consts) (s : σ) (i : Nat) :
    (worldAtPoll L K s i).beginAnswers.length = i := by
  induction i with
  | zero => simp [worldAtPoll, setup_beginAnswers]
  | succ n ih => simp [worldAtPoll, frame_beginAnswers, World.WindowShouldClose, ih]

/-- From the state before poll `i`, with the first true answer `d` polls later
and more than `d` polls allowed, the loop is left at that poll. -/
theorem loop_from_poll (L : Lib σ) (K : Consts) (s : σ) (d : Nat) :
    ∀ (i fuel : Nat), closeAt L K s (i + d) = true →
      (∀ j, i ≤ j → j < i + d → closeAt L K s j = false) → d < fuel →
      loop L K fuel (worldAtPoll L K s i)
        = (((worldAtPoll L K s (i + d)).WindowShouldClose L).2, true) := by
  induction d with
  | zero =>
    intro i fuel ht _ hf
    obtain ⟨n, rfl⟩ : ∃ n, fuel = n + 1 := ⟨fuel - 1, by omega⟩
    exact loop_succ_true L K n _ ht
  | succ d ih =>
    intro i fuel ht hfalse hf
    obtain ⟨n, rfl⟩ : ∃ n, fuel = n + 1 := ⟨fuel - 1, by omega⟩
    have h0 : ((worldAtPoll L K s i).WindowShouldClose L).1 = false :=
      hfalse i (Nat.le_refl i) (by omega)
    rw [loop_succ_false L K n _ h0]
    have hstep : frame L K ((worldAtPoll L K s i).WindowShouldClose L).2
        = worldAtPoll L K s (i + 1) := rfl
    rw [hstep]
    have hidx : i + (d + 1) = (i + 1) + d := by omega
    rw [hidx] at ht ⊢
    exact ih (i + 1) n ht (fun j h1 h2 => hfalse j (by omega) (by omega)) (by omega)

/-- A run whose first true answer comes at poll `k`, allowed more than `k`
polls: `main` returns 0 after shutting down from the state left by that poll. -/
theorem main_of_close (L : Lib σ) (K : Consts) (s : σ) (k fuel : Nat)
    (ht : closeAt L K s k = true) (hf : ∀ j, j < k → closeAt L K s j = false)
    (hfuel : k < fuel) :
    (main L K fuel s).exit = some 0 ∧ (main L K fuel s).world.beginAnswers.length = k := by
  have hl := loop_from_poll L K s k 0 fuel (by simpa using ht)
    (fun j _ h2 => hf j (by omega)) hfuel
  have hw : worldAtPoll L K s 0 = setup L (World.start s) := rfl
  rw [hw] at hl
  have hlen := worldAtPoll_beginAnswers_length L K s k
  simp only [Nat.zero_add] at hl
  constructor
  · simp [main, hl]
  · simp [main, hl, World.call, World.WindowShouldClose, hlen]

/-- A frame of a scripted run moves the library state on by one. -/
theorem frame_lib_scripted (A : Script) (K : Consts) (w : World Nat) :
    (frame (scripted A) K w).lib = w.lib + 1 := by
  simp only [frame, World.call, World.ShowDemoWindow, World.Begin]
  split <;> rfl

/-- The library state of a scripted run before poll `i` is `i`. -/
theorem worldAtPoll_scripted (A : Script) (K : Consts) (i : Nat) :
    (worldAtPoll (scripted A) K 0 i).lib = i := by
  induction i with
  | zero => rfl
  | succ n ih =>
    have h : worldAtPoll (scripted A) K 0 (n + 1)
        = frame (scripted A) K ((worldAtPoll (scripted A) K 0 n).WindowShouldClose
            (scripted A)).2 := rfl
    rw [h, frame_lib_scripted]
    have h2 : ((worldAtPoll (scripted A) K 0 n).WindowShouldClose (scripted A)).2.lib
        = (worldAtPoll (scripted A) K 0 n).lib := rfl
    rw [h2, ih]

/-- Every sequence of answers is the sequence some library model gives: the
scripted model answers poll `i` with `A.shouldClose i`. -/
theorem closeAt_scripted (A : Script) (K : Consts) (i : Nat) :
    closeAt (scripted A) K 0 i = A.shouldClose i := by
  have h := worldAtPoll_scripted A K i
  simp only [closeAt, World.WindowShouldClose]
  rw [h]
  rfl

/-- When some poll answers true there is a first one. -/
theorem exists_first_close (L : Lib σ) (K : Consts) (s : σ) (k : Nat)
    (ht : closeAt L K s k = true) :
    ∃ j, j ≤ k ∧ closeAt L K s j = true ∧ ∀ i, i < j → closeAt L K s i = false := by
  classical
  have hex : ∃ j, closeAt L K s j = true := ⟨k, ht⟩
  refine ⟨Nat.find hex, Nat.find_min' hex ht, Nat.find_spec hex, ?_⟩
  intro i hi
  have := Nat.find_min hex hi
  simpa using this

/-! ## Counting calls -/

theorem fnCount_append (f : Fn) (a b : List Call) :
    fnCount f (a ++ b) = fnCount f a + fnCount f b := by
  simp [fnCount]

theorem fnCount_eq_zero (f : Fn) (t : List Call) (h : ∀ c ∈ t, c.fn ≠ f) :
    fnCount f t = 0 := by
  simp only [fnCount, List.count_eq_zero, List.mem_map, not_exists, not_and]
  intro c hc heq
  exact h c hc heq

theorem frameCalls_fn (K : Consts) (b : Bool) :
    (frameCalls K b).map Call.fn
      = [Fn.BeginDrawing, Fn.ClearBackground, Fn.rlImGuiBegin, Fn.ShowDemoWindow, Fn.Begin]
        ++ (if b then [Fn.TextUnformatted] else [])
        ++ [Fn.End, Fn.DrawText, Fn.rlImGuiEnd, Fn.EndDrawing] := by
  cases b <;> rfl

/-- The functions a frame calls are none of the set-up and shut-down functions. -/
theorem frameFns_stay (b : Bool) :
    ∀ f ∈ ([Fn.BeginDrawing, Fn.ClearBackground, Fn.rlImGuiBegin, Fn.ShowDemoWindow, Fn.Begin]
        ++ (if b then [Fn.TextUnformatted] else [])
        ++ [Fn.End, Fn.DrawText, Fn.rlImGuiEnd, Fn.EndDrawing] : List Fn),
      f ≠ Fn.InitWindow ∧ f ≠ Fn.SetTargetFPS ∧ f ≠ Fn.rlImGuiSetup ∧
      f ≠ Fn.rlImGuiShutdown ∧ f ≠ Fn.CloseWindow := by
  cases b <;> decide

/-- The loop calls none of the set-up and shut-down functions. -/
theorem loopCalls_fn (K : Consts) (bs : List Bool) :
    ∀ c ∈ loopCalls K bs,
      c.fn ≠ Fn.InitWindow ∧ c.fn ≠ Fn.SetTargetFPS ∧ c.fn ≠ Fn.rlImGuiSetup ∧
      c.fn ≠ Fn.rlImGuiShutdown ∧ c.fn ≠ Fn.CloseWindow := by
  induction bs with
  | nil => intro c hc; cases hc
  | cons b bs ih =>
    intro c hc
    simp only [loopCalls, List.mem_cons, List.mem_append] at hc
    rcases hc with rfl | hc | hc
    · exact ⟨by decide, by decide, by decide, by decide, by decide⟩
    · have hf : c.fn ∈ (frameCalls K b).map Call.fn := List.mem_map_of_mem Call.fn hc
      rw [frameCalls_fn] at hf
      exact frameFns_stay b c.fn hf
    · exact ih c hc

theorem fnCount_loopCalls_cons (f : Fn) (K : Consts) (b : Bool) (bs : List Bool) :
    fnCount f (loopCalls K (b :: bs))
      = fnCount f [Call.WindowShouldClose] + fnCount f (frameCalls K b)
        + fnCount f (loopCalls K bs) := by
  have h : loopCalls K (b :: bs)
      = [Call.WindowShouldClose] ++ (frameCalls K b ++ loopCalls K bs) := rfl
  rw [h, fnCount_append, fnCount_append, Nat.add_assoc]

theorem frameCalls_count (K : Consts) (b : Bool) :
    fnCount Fn.WindowShouldClose (frameCalls K b) = 0 ∧
    fnCount Fn.BeginDrawing (frameCalls K b) = 1 ∧
    fnCount Fn.EndDrawing (frameCalls K b) = 1 ∧
    fnCount Fn.Begin (frameCalls K b) = 1 ∧
    fnCount Fn.End (frameCalls K b) = 1 := by
  simp only [fnCount, frameCalls_fn]
  cases b <;> decide

/-- Every frame makes one call of each of the functions that open or close a
bracket, and is preceded by one poll. -/
theorem loopCalls_count (K : Consts) (bs : List Bool) :
    fnCount Fn.WindowShouldClose (loopCalls K bs) = bs.length ∧
    fnCount Fn.BeginDrawing (loopCalls K bs) = bs.length ∧
    fnCount Fn.EndDrawing (loopCalls K bs) = bs.length ∧
    fnCount Fn.Begin (loopCalls K bs) = bs.length ∧
    fnCount Fn.End (loopCalls K bs) = bs.length := by
  induction bs with
  | nil => exact ⟨rfl, rfl, rfl, rfl, rfl⟩
  | cons b bs ih =>
    obtain ⟨h1, h2, h3, h4, h5⟩ := ih
    obtain ⟨g1, g2, g3, g4, g5⟩ := frameCalls_count K b
    have e1 : fnCount Fn.WindowShouldClose [Call.WindowShouldClose] = 1 := by decide
    have e2 : fnCount Fn.BeginDrawing [Call.WindowShouldClose] = 0 := by decide
    have e3 : fnCount Fn.EndDrawing [Call.WindowShouldClose] = 0 := by decide
    have e4 : fnCount Fn.Begin [Call.WindowShouldClose] = 0 := by decide
    have e5 : fnCount Fn.End [Call.WindowShouldClose] = 0 := by decide
    simp only [fnCount_loopCalls_cons, List.length_cons, h1, h2, h3, h4, h5,
      g1, g2, g3, g4, g5, e1, e2, e3, e4, e5]
    omega

end Lemmas

/-! ## Initialisation and shutdown -/

/-- C1: in every run in which `WindowShouldClose` first answers true at poll `n`
(a run of `n` frames, `n ≥ 0`) and `main` is given more than `n` polls, the trace
is `InitWindow`, `SetTargetFPS`, `rlImGuiSetup`, then a body holding the `n`
frames, then `rlImGuiShutdown`, `CloseWindow` as its last two calls; the body
calls none of these functions, so `InitWindow`, `rlImGuiSetup`, `rlImGuiShutdown`
and `CloseWindow` each occur exactly once. -/
theorem C1_init_first_shutdown_last {σ : Type} (L : Lib σ) (K : Consts) (s : σ)
    (n fuel : Nat) (hclose : closeAt L K s n = true)
    (hfirst : ∀ i, i < n → closeAt L K s i = false) (hfuel : n < fuel) :
    ∃ body : List Call,
      (main L K fuel s).world.trace
        = [Call.InitWindow 800 600 "raylib basic window", Call.SetTargetFPS 120,
           Call.rlImGuiSetup true]
          ++ body ++ [Call.rlImGuiShutdown, Call.CloseWindow] ∧
      (∀ c ∈ body, c.fn ≠ Fn.InitWindow ∧ c.fn ≠ Fn.SetTargetFPS ∧
        c.fn ≠ Fn.rlImGuiSetup ∧ c.fn ≠ Fn.rlImGuiShutdown ∧ c.fn ≠ Fn.CloseWindow) ∧
      fnCount Fn.BeginDrawing body = n ∧ fnCount Fn.EndDrawing body = n ∧
      fnCount Fn.InitWindow (main L K fuel s).world.trace = 1 ∧
      fnCount Fn.rlImGuiSetup (main L K fuel s).world.trace = 1 ∧
      fnCount Fn.rlImGuiShutdown (main L K fuel s).world.trace = 1 ∧
      fnCount Fn.CloseWindow (main L K fuel s).world.trace = 1 := by
  obtain ⟨hexit, hlen⟩ := main_of_close L K s n fuel hclose hfirst hfuel
  obtain ⟨ht, -, -, -, -⟩ := main_shape L K fuel s
  rw [hexit] at ht
  simp only [Option.isSome_some, if_true] at ht
  have hbody : ∀ c ∈ loopCalls K (main L K fuel s).world.beginAnswers
        ++ [Call.WindowShouldClose],
      c.fn ≠ Fn.InitWindow ∧ c.fn ≠ Fn.SetTargetFPS ∧
      c.fn ≠ Fn.rlImGuiSetup ∧ c.fn ≠ Fn.rlImGuiShutdown ∧ c.fn ≠ Fn.CloseWindow := by
    intro c hc
    rcases List.mem_append.1 hc with h | h
    · exact loopCalls_fn K _ c h
    · rw [List.mem_singleton.1 h]
      exact ⟨by decide, by decide, by decide, by decide, by decide⟩
  obtain ⟨-, c2, c3, -, -⟩ := loopCalls_count K (main L K fuel s).world.beginAnswers
  have htr : (main L K fuel s).world.trace
      = [Call.InitWindow 800 600 "raylib basic window", Call.SetTargetFPS 120,
         Call.rlImGuiSetup true]
        ++ (loopCalls K (main L K fuel s).world.beginAnswers ++ [Call.WindowShouldClose])
        ++ [Call.rlImGuiShutdown, Call.CloseWindow] := by
    rw [ht]; simp [setupCalls, exitCalls]
  have z1 := fnCount_eq_zero Fn.InitWindow _ (fun c hc => (hbody c hc).1)
  have z2 := fnCount_eq_zero Fn.rlImGuiSetup _ (fun c hc => (hbody c hc).2.2.1)
  have z3 := fnCount_eq_zero Fn.rlImGuiShutdown _ (fun c hc => (hbody c hc).2.2.2.1)
  have z4 := fnCount_eq_zero Fn.CloseWindow _ (fun c hc => (hbody c hc).2.2.2.2)
  refine ⟨loopCalls K (main L K fuel s).world.beginAnswers ++ [Call.WindowShouldClose],
    htr, hbody, ?_, ?_, ?_, ?_, ?_, ?_⟩
  · rw [fnCount_append, c2, hlen]; rfl
  · rw [fnCount_append, c3, hlen]; rfl
  · rw [htr, fnCount_append, fnCount_append, z1]; rfl
  · rw [htr, fnCount_append, fnCount_append, z2]; rfl
  · rw [htr, fnCount_append, fnCount_append, z3]; rfl
  · rw [htr, fnCount_append, fnCount_append, z4]; rfl

/-- C1 on the script `closeAtTwo`, whose first true answer is at poll 2. -/
theorem C1_init_first_shutdown_last_witness :
    closeAt (scripted closeAtTwo) headerConsts 0 2 = true ∧
    (∀ i, i < 2 → closeAt (scripted closeAtTwo) headerConsts 0 i = false) ∧
    ∃ body : List Call,
      (main (scripted closeAtTwo) headerConsts 3 0).world.trace
        = [Call.InitWindow 800 600 "raylib basic window", Call.SetTargetFPS 120,
           Call.rlImGuiSetup true]
          ++ body ++ [Call.rlImGuiShutdown, Call.CloseWindow] ∧
      (∀ c ∈ body, c.fn ≠ Fn.InitWindow ∧ c.fn ≠ Fn.SetTargetFPS ∧
        c.fn ≠ Fn.rlImGuiSetup ∧ c.fn ≠ Fn.rlImGuiShutdown ∧ c.fn ≠ Fn.CloseWindow) ∧
      fnCount Fn.BeginDrawing body = 2 ∧ fnCount Fn.EndDrawing body = 2 ∧
      fnCount Fn.InitWindow (main (scripted closeAtTwo) headerConsts 3 0).world.trace = 1 ∧
      fnCount Fn.rlImGuiSetup (main (scripted closeAtTwo) headerConsts 3 0).world.trace = 1 ∧
      fnCount Fn.rlImGuiShutdown (main (scripted closeAtTwo) headerConsts 3 0).world.trace = 1 ∧
      fnCount Fn.CloseWindow (main (scripted closeAtTwo) headerConsts 3 0).world.trace = 1 :=
  ⟨by decide, by decide,
   C1_init_first_shutdown_last (scripted closeAtTwo) headerConsts 0 2 3
     (by decide) (by decide) (by decide)⟩

/-! ## Leaving the loop -/

/-- C3: when the first true answer of `WindowShouldClose` is at poll `k` and
`main` is given more than `k` polls, `main` returns; `WindowShouldClose` is
polled exactly `k + 1` times, answering false `k` times and then true; exactly
`k` frames are begun and ended, each after a poll; and the poll that answers
true is followed by `rlImGuiShutdown`, `CloseWindow` and nothing else. -/
theorem C3_close_request_ends_loop {σ : Type} (L : Lib σ) (K : Consts) (s : σ)
    (k fuel : Nat) (hclose : closeAt L K s k = true)
    (hfirst : ∀ i, i < k → closeAt L K s i = false) (hfuel : k < fuel) :
    (main L K fuel s).exit = some 0 ∧
    (main L K fuel s).world.closeAnswers = List.replicate k false ++ [true] ∧
    fnCount Fn.WindowShouldClose (main L K fuel s).world.trace = k + 1 ∧
    fnCount Fn.BeginDrawing (main L K fuel s).world.trace = k ∧
    fnCount Fn.EndDrawing (main L K fuel s).world.trace = k ∧
    (main L K fuel s).world.beginAnswers.length = k ∧
    (main L K fuel s).world.trace
      = setupCalls ++ loopCalls K (main L K fuel s).world.beginAnswers
        ++ [Call.WindowShouldClose, Call.rlImGuiShutdown, Call.CloseWindow] := by
  obtain ⟨hexit, hlen⟩ := main_of_close L K s k fuel hclose hfirst hfuel
  obtain ⟨ht, hc, -, -, -⟩ := main_shape L K fuel s
  rw [hexit] at ht hc
  simp only [Option.isSome_some, if_true] at ht hc
  obtain ⟨c1, c2, c3, -, -⟩ := loopCalls_count K (main L K fuel s).world.beginAnswers
  have htr : (main L K fuel s).world.trace
      = setupCalls ++ loopCalls K (main L K fuel s).world.beginAnswers
        ++ [Call.WindowShouldClose, Call.rlImGuiShutdown, Call.CloseWindow] := by
    rw [ht]; simp [exitCalls]
  refine ⟨hexit, ?_, ?_, ?_, ?_, hlen, htr⟩
  · rw [hc, hlen]
  · rw [htr, fnCount_append, fnCount_append, c1, hlen]
    have e1 : fnCount Fn.WindowShouldClose setupCalls = 0 := by decide
    have e2 : fnCount Fn.WindowShouldClose
        [Call.WindowShouldClose, Call.rlImGuiShutdown, Call.CloseWindow] = 1 := by decide
    rw [e1, e2]; omega
  · rw [htr, fnCount_append, fnCount_append, c2, hlen]
    have e1 : fnCount Fn.BeginDrawing setupCalls = 0 := by decide
    have e2 : fnCount Fn.BeginDrawing
        [Call.WindowShouldClose, Call.rlImGuiShutdown, Call.CloseWindow] = 0 := by decide
    rw [e1, e2]; omega
  · rw [htr, fnCount_append, fnCount_append, c3, hlen]
    have e1 : fnCount Fn.EndDrawing setupCalls = 0 := by decide
    have e2 : fnCount Fn.EndDrawing
        [Call.WindowShouldClose, Call.rlImGuiShutdown, Call.CloseWindow] = 0 := by decide
    rw [e1, e2]; omega

/-- C3 on the library model `noWindow 2`, whose first true answer is at poll 2. -/
theorem C3_close_request_ends_loop_witness :
    closeAt (noWindow 2) headerConsts headless 2 = true ∧
    (∀ i, i < 2 → closeAt (noWindow 2) headerConsts headless i = false) ∧
    (main (noWindow 2) headerConsts 7 headless).exit = some 0 ∧
    (main (noWindow 2) headerConsts 7 headless).world.closeAnswers
      = List.replicate 2 false ++ [true] ∧
    fnCount Fn.WindowShouldClose (main (noWindow 2) headerConsts 7 headless).world.trace
      = 2 + 1 ∧
    fnCount Fn.BeginDrawing (main (noWindow 2) headerConsts 7 headless).world.trace = 2 ∧
    fnCount Fn.EndDrawing (main (noWindow 2) headerConsts 7 headless).world.trace = 2 ∧
    (main (noWindow 2) headerConsts 7 headless).world.beginAnswers.length = 2 ∧
    (main (noWindow 2) headerConsts 7 headless).world.trace
      = setupCalls
        ++ loopCalls headerConsts (main (noWindow 2) headerConsts 7 headless).world.beginAnswers
        ++ [Call.WindowShouldClose, Call.rlImGuiShutdown, Call.CloseWindow] :=
  ⟨by decide, by decide,
   C3_close_request_ends_loop (noWindow 2) headerConsts headless 2 7
     (by decide) (by decide) (by decide)⟩

/-- C4: when the first poll of `WindowShouldClose` answers true (and `main` is
given at least one poll), `main` returns 0 and its whole trace is
`InitWindow(800, 600, "raylib basic window")`, `SetTargetFPS(120)`,
`rlImGuiSetup(true)`, `WindowShouldClose`, `rlImGuiShutdown`, `CloseWindow`:
no frame is run and no drawing or ImGui call is made. -/
theorem C4_immediate_close_runs_no_frame {σ : Type} (L : Lib σ) (K : Consts) (s : σ)
    (fuel : Nat) (hclose : closeAt L K s 0 = true) (hfuel : 0 < fuel) :
    (main L K fuel s).world.trace
      = [Call.InitWindow 800 600 "raylib basic window", Call.SetTargetFPS 120,
         Call.rlImGuiSetup true, Call.WindowShouldClose, Call.rlImGuiShutdown,
         Call.CloseWindow] ∧
    (main L K fuel s).exit = some 0 ∧
    (∀ c ∈ (main L K fuel s).world.trace,
      c.fn ≠ Fn.BeginDrawing ∧ c.fn ≠ Fn.rlImGuiBegin ∧ c.fn ≠ Fn.ShowDemoWindow ∧
      c.fn ≠ Fn.Begin ∧ c.fn ≠ Fn.TextUnformatted ∧ c.fn ≠ Fn.End) := by
  obtain ⟨hexit, hlen⟩ :=
    main_of_close L K s 0 fuel hclose (fun i hi => absurd hi (Nat.not_lt_zero i)) hfuel
  obtain ⟨ht, -, -, -, -⟩ := main_shape L K fuel s
  rw [hexit, List.length_eq_zero.1 hlen] at ht
  have htr : (main L K fuel s).world.trace
      = [Call.InitWindow 800 600 "raylib basic window", Call.SetTargetFPS 120,
         Call.rlImGuiSetup true, Call.WindowShouldClose, Call.rlImGuiShutdown,
         Call.CloseWindow] := by
    rw [ht]; rfl
  refine ⟨htr, hexit, ?_⟩
  intro c hc
  have hf : c.fn ∈ (main L K fuel s).world.trace.map Call.fn := List.mem_map_of_mem Call.fn hc
  rw [htr] at hf
  have hall : ∀ f ∈ ([Fn.InitWindow, Fn.SetTargetFPS, Fn.rlImGuiSetup, Fn.WindowShouldClose,
      Fn.rlImGuiShutdown, Fn.CloseWindow] : List Fn),
      f ≠ Fn.BeginDrawing ∧ f ≠ Fn.rlImGuiBegin ∧ f ≠ Fn.ShowDemoWindow ∧
      f ≠ Fn.Begin ∧ f ≠ Fn.TextUnformatted ∧ f ≠ Fn.End := by decide
  exact hall c.fn hf

/-- C4 on a script whose first poll answers true. -/
theorem C4_immediate_close_runs_no_frame_witness :
    closeAt (scripted closeAtOnce) headerConsts 0 0 = true ∧
    (main (scripted closeAtOnce) headerConsts 4 0).world.trace
      = [Call.InitWindow 800 600 "raylib basic window", Call.SetTargetFPS 120,
         Call.rlImGuiSetup true, Call.WindowShouldClose, Call.rlImGuiShutdown,
         Call.CloseWindow] ∧
    (main (scripted closeAtOnce) headerConsts 4 0).exit = some 0 ∧
    (∀ c ∈ (main (scripted closeAtOnce) headerConsts 4 0).world.trace,
      c.fn ≠ Fn.BeginDrawing ∧ c.fn ≠ Fn.rlImGuiBegin ∧ c.fn ≠ Fn.ShowDemoWindow ∧
      c.fn ≠ Fn.Begin ∧ c.fn ≠ Fn.TextUnformatted ∧ c.fn ≠ Fn.End) :=
  ⟨by decide,
   C4_immediate_close_runs_no_frame (scripted closeAtOnce) headerConsts 0 4
     (by decide) (by decide)⟩

/-- C5: `main` returns no value other than 0 (a run that has not returned has
no exit code, one that has returned has exit code 0), and it does return 0 in
every run in which some poll of `WindowShouldClose` answers true, once it is
given more polls than that, whatever `ImGui::Begin` answers. -/
theorem C5_exit_code_zero {σ : Type} (L : Lib σ) (K : Consts) (s : σ) :
    (∀ fuel, (main L K fuel s).exit = none ∨ (main L K fuel s).exit = some 0) ∧
    (∀ k, closeAt L K s k = true → ∀ fuel, k < fuel → (main L K fuel s).exit = some 0) := by
  constructor
  · intro fuel
    exact (main_shape L K fuel s).2.2.1
  · intro k hk fuel hfuel
    obtain ⟨j, hjk, hj, hfirst⟩ := exists_first_close L K s k hk
    exact (main_of_close L K s j fuel hj hfirst (by omega)).1

/-- C5 on the script `closeAtTwo`: no exit code after two polls, exit code 0
with three or more. -/
theorem C5_exit_code_zero_witness :
    (main (scripted closeAtTwo) headerConsts 2 0).exit = none ∧
    (main (scripted closeAtTwo) headerConsts 3 0).exit = some 0 ∧
    (main (scripted closeAtTwo) headerConsts 9 0).exit = some 0 :=
  ⟨by decide,
   (C5_exit_code_zero (scripted closeAtTwo) headerConsts 0).2 2 (by decide) 3 (by decide),
   (C5_exit_code_zero (scripted closeAtTwo) headerConsts 0).2 2 (by decide) 9 (by decide)⟩

/-! ## The calls of a frame -/

theorem loopCalls_eq_polled (K : Consts) (bs : List Bool) :
    loopCalls K bs = polled (bs.map (frameCalls K)) := by
  induction bs with
  | nil => rfl
  | cons b bs ih => simp [loopCalls, polled, ih]

theorem frameCalls_filter (K : Consts) (b : Bool) :
    (frameCalls K b).filter (fun c => decide (c.fn ≠ Fn.TextUnformatted))
      = [Call.BeginDrawing, Call.ClearBackground K.RAYWHITE, Call.rlImGuiBegin,
         Call.ShowDemoWindow true, Call.Begin "Hello" true, Call.End,
         Call.DrawText "It works!" 20 20 20 K.BLACK, Call.rlImGuiEnd, Call.EndDrawing] := by
  cases b <;> rfl

/-- C2: every execution of the loop body appends to the trace calls that, the
`TextUnformatted` call of the panel apart, are exactly `BeginDrawing`,
`ClearBackground(RAYWHITE)`, `rlImGuiBegin`, `ImGui::ShowDemoWindow`,
`ImGui::Begin("Hello")`, `ImGui::End`, `DrawText("It works!", 20, 20, 20, BLACK)`,
`rlImGuiEnd`, `EndDrawing`, in this order and once each; and the trace of every
run of `main` is the set-up calls, then such frames, each preceded by its poll,
then the exit calls if `main` returned. -/
theorem C2_frame_calls_in_order {σ : Type} (L : Lib σ) (K : Consts) :
    (∀ w : World σ, ∃ calls : List Call,
      (frame L K w).trace = w.trace ++ calls ∧
      calls.filter (fun c => decide (c.fn ≠ Fn.TextUnformatted))
        = [Call.BeginDrawing, Call.ClearBackground K.RAYWHITE, Call.rlImGuiBegin,
           Call.ShowDemoWindow true, Call.Begin "Hello" true, Call.End,
           Call.DrawText "It works!" 20 20 20 K.BLACK, Call.rlImGuiEnd,
           Call.EndDrawing]) ∧
    (∀ (fuel : Nat) (s : σ), ∃ frames : List (List Call),
      (main L K fuel s).world.trace
        = setupCalls ++ (polled frames
            ++ if (main L K fuel s).exit.isSome then exitCalls else []) ∧
      frames.length = (main L K fuel s).world.beginAnswers.length ∧
      ∀ calls ∈ frames,
        calls.filter (fun c => decide (c.fn ≠ Fn.TextUnformatted))
          = [Call.BeginDrawing, Call.ClearBackground K.RAYWHITE, Call.rlImGuiBegin,
             Call.ShowDemoWindow true, Call.Begin "Hello" true, Call.End,
             Call.DrawText "It works!" 20 20 20 K.BLACK, Call.rlImGuiEnd,
             Call.EndDrawing]) := by
  constructor
  · intro w
    exact ⟨frameCalls K (beginAnswer L K w), frame_trace L K w, frameCalls_filter K _⟩
  · intro fuel s
    refine ⟨(main L K fuel s).world.beginAnswers.map (frameCalls K), ?_, by simp, ?_⟩
    · rw [← loopCalls_eq_polled]
      exact (main_shape L K fuel s).1
    · intro calls hc
      obtain ⟨b, -, rfl⟩ := List.mem_map.1 hc
      exact frameCalls_filter K b

/-- C2 on the script `closeAtTwo`: the two frames of the run, the first with the
panel's text call and the second without it. -/
theorem C2_frame_calls_in_order_witness :
    (main (scripted closeAtTwo) headerConsts 3 0).world.trace
      = setupCalls ++ (polled [frameCalls headerConsts true, frameCalls headerConsts false]
          ++ exitCalls) ∧
    ∃ frames : List (List Call),
      (main (scripted closeAtTwo) headerConsts 3 0).world.trace
        = setupCalls ++ (polled frames
            ++ if (main (scripted closeAtTwo) headerConsts 3 0).exit.isSome
               then exitCalls else []) ∧
      frames.length = (main (scripted closeAtTwo) headerConsts 3 0).world.beginAnswers.length ∧
      ∀ calls ∈ frames,
        calls.filter (fun c => decide (c.fn ≠ Fn.TextUnformatted))
          = [Call.BeginDrawing, Call.ClearBackground headerConsts.RAYWHITE,
             Call.rlImGuiBegin, Call.ShowDemoWindow true, Call.Begin "Hello" true,
             Call.End, Call.DrawText "It works!" 20 20 20 headerConsts.BLACK,
             Call.rlImGuiEnd, Call.EndDrawing] :=
  ⟨rfl, (C2_frame_calls_in_order (scripted closeAtTwo) headerConsts).2 3 0⟩

/-! ## The open flag -/

theorem frameCalls_p_open (K : Consts) (b : Bool) :
    (frameCalls K b).filterMap Call.p_open? = [true, true] := by
  cases b <;> rfl

theorem loopCalls_p_open (K : Consts) (bs : List Bool) :
    (loopCalls K bs).filterMap Call.p_open? = List.replicate (2 * bs.length) true := by
  induction bs with
  | nil => rfl
  | cons b bs ih =>
    have h : loopCalls K (b :: bs)
        = [Call.WindowShouldClose] ++ (frameCalls K b ++ loopCalls K bs) := rfl
    have hn : 2 * (b :: bs).length = 2 * bs.length + 1 + 1 := by simp; omega
    have h0 : List.filterMap Call.p_open? [Call.WindowShouldClose] = [] := rfl
    rw [h, List.filterMap_append, List.filterMap_append, frameCalls_p_open, ih, hn, h0]
    simp [List.replicate_succ]

/-- C6: in every frame, whatever state the libraries are in and whatever they
write through `&open`, the loop body hands `ImGui::ShowDemoWindow` and
`ImGui::Begin("Hello")` a flag that holds true: the body makes two calls taking
`&open` and the values of `open` at those calls are true, true; so over a whole
run of `main` the values of `open` at the panel calls are all true, two per
frame. -/
theorem C6_open_flag_true_at_each_call {σ : Type} (L : Lib σ) (K : Consts) :
    (∀ w : World σ, ∃ calls : List Call,
      (frame L K w).trace = w.trace ++ calls ∧
      calls.filterMap Call.p_open? = [true, true]) ∧
    (∀ (fuel : Nat) (s : σ),
      (main L K fuel s).world.trace.filterMap Call.p_open?
        = List.replicate (2 * (main L K fuel s).world.beginAnswers.length) true) := by
  constructor
  · intro w
    exact ⟨frameCalls K (beginAnswer L K w), frame_trace L K w, frameCalls_p_open K _⟩
  · intro fuel s
    rw [(main_shape L K fuel s).1, List.filterMap_append, List.filterMap_append,
      loopCalls_p_open]
    have h1 : List.filterMap Call.p_open? setupCalls = [] := rfl
    have h2 : List.filterMap Call.p_open? exitCalls = [] := rfl
    rw [h1]
    cases (main L K fuel s).exit.isSome <;> simp [h2]

/-- C6 on the library model `noWindow 2`, whose panels write false through
`&open` at every call: the four panel calls of its two frames are still handed
true. -/
theorem C6_open_flag_true_at_each_call_witness :
    (noWindow 2).ShowDemoWindow true headless = (false, headless) ∧
    ((noWindow 2).Begin "Hello" true headless).1.2 = false ∧
    (main (noWindow 2) headerConsts 7 headless).world.trace.filterMap Call.p_open?
      = [true, true, true, true] :=
  ⟨rfl, rfl,
   (C6_open_flag_true_at_each_call (noWindow 2) headerConsts).2 7 headless⟩

/-! ## The panel -/

theorem panelBodies_frame (K : Consts) (b : Bool) (t : List Call) :
    panelBodies none (Call.WindowShouldClose :: (frameCalls K b ++ t))
      = (if b then [Call.TextUnformatted K.ICON_FA_JEDI] else []) :: panelBodies none t := by
  cases b <;> rfl

theorem panelBodies_loopCalls (K : Consts) (bs : List Bool) (t : List Call) :
    panelBodies none (loopCalls K bs ++ t)
      = bs.map (fun b => if b then [Call.TextUnformatted K.ICON_FA_JEDI] else [])
        ++ panelBodies none t := by
  induction bs with
  | nil => rfl
  | cons b bs ih =>
    have h : loopCalls K (b :: bs) ++ t
        = Call.WindowShouldClose :: (frameCalls K b ++ (loopCalls K bs ++ t)) := by
      simp [loopCalls]
    rw [h, panelBodies_frame, ih]
    rfl

/-- The calls made inside the panels of a run, frame by frame. -/
theorem main_panelBodies {σ : Type} (L : Lib σ) (K : Consts) (fuel : Nat) (s : σ) :
    panelBodies none (main L K fuel s).world.trace
      = (main L K fuel s).world.beginAnswers.map
          (fun b => if b then [Call.TextUnformatted K.ICON_FA_JEDI] else []) := by
  have hs : ∀ t, panelBodies none (setupCalls ++ t) = panelBodies none t := fun _ => rfl
  rw [(main_shape L K fuel s).1, hs, panelBodies_loopCalls]
  cases (main L K fuel s).exit.isSome
  · simp [panelBodies]
  · have he : panelBodies none exitCalls = [] := rfl
    simp [he]

/-- C7, as amended: over every run of `main`, the calls made between
`ImGui::Begin("Hello")` and the next `ImGui::End` are, frame by frame, the single
call `ImGui::TextUnformatted(ICON_FA_JEDI)` in a frame in which `ImGui::Begin`
answers true, and no call in a frame in which it answers false. -/
theorem C7_panel_text_when_begin_true {σ : Type} (L : Lib σ) (K : Consts)
    (fuel : Nat) (s : σ) :
    panelBodies none (main L K fuel s).world.trace
      = (main L K fuel s).world.beginAnswers.map
          (fun b => if b then [Call.TextUnformatted K.ICON_FA_JEDI] else []) :=
  main_panelBodies L K fuel s

/-- C7 as stated fails: in the run of `main` over `noWindow 2` there are two
frames, `ImGui::Begin` answers false in the second, and the panel of that frame
holds no `TextUnformatted` call, so not every panel holds exactly that call. -/
theorem C7_panel_text_every_frame_counterexample :
    fnCount Fn.Begin (main (noWindow 2) headerConsts 7 headless).world.trace = 2 ∧
    (main (noWindow 2) headerConsts 7 headless).world.beginAnswers = [true, false] ∧
    panelBodies none (main (noWindow 2) headerConsts 7 headless).world.trace
      = [[Call.TextUnformatted headerConsts.ICON_FA_JEDI], []] ∧
    fnCount Fn.TextUnformatted (main (noWindow 2) headerConsts 7 headless).world.trace = 1 ∧
    ¬ (∀ body ∈ panelBodies none (main (noWindow 2) headerConsts 7 headless).world.trace,
        body = [Call.TextUnformatted headerConsts.ICON_FA_JEDI]) := by
  refine ⟨rfl, rfl, rfl, rfl, ?_⟩
  intro h
  have h2 := h [] (by
    have e : panelBodies none (main (noWindow 2) headerConsts 7 headless).world.trace
        = [[Call.TextUnformatted headerConsts.ICON_FA_JEDI], []] := rfl
    rw [e]; simp)
  cases h2

/-- C9: every execution of the loop body calls `ImGui::Begin("Hello")` once and
`ImGui::End` once, after it, whichever answer `b` `ImGui::Begin` gives: the calls
of the frame are the five up to `ImGui::Begin`, then `TextUnformatted` when `b`
is true and nothing when `b` is false, then `ImGui::End` and the three calls
after it.  So over a run of `main` there are as many `ImGui::End` calls as
`ImGui::Begin` calls, one of each per frame, and the panel of a frame in which
`ImGui::Begin` answered false holds no call. -/
theorem C9_end_called_whatever_begin_answers {σ : Type} (L : Lib σ) (K : Consts) :
    (∀ w : World σ, ∃ b : Bool,
      (frame L K w).beginAnswers = w.beginAnswers ++ [b] ∧
      (frame L K w).trace
        = w.trace ++ ([Call.BeginDrawing, Call.ClearBackground K.RAYWHITE,
            Call.rlImGuiBegin, Call.ShowDemoWindow true, Call.Begin "Hello" true]
          ++ (if b then [Call.TextUnformatted K.ICON_FA_JEDI] else [])
          ++ [Call.End, Call.DrawText "It works!" 20 20 20 K.BLACK, Call.rlImGuiEnd,
              Call.EndDrawing])) ∧
    (∀ (fuel : Nat) (s : σ),
      fnCount Fn.Begin (main L K fuel s).world.trace
        = (main L K fuel s).world.beginAnswers.length ∧
      fnCount Fn.End (main L K fuel s).world.trace
        = (main L K fuel s).world.beginAnswers.length ∧
      (panelBodies none (main L K fuel s).world.trace).length
        = (main L K fuel s).world.beginAnswers.length ∧
      ∀ i : Nat, (main L K fuel s).world.beginAnswers[i]? = some false →
        (panelBodies none (main L K fuel s).world.trace)[i]? = some ([] : List Call)) := by
  constructor
  · intro w
    exact ⟨beginAnswer L K w, frame_beginAnswers L K w, frame_trace L K w⟩
  · intro fuel s
    obtain ⟨-, -, -, c4, c5⟩ := loopCalls_count K (main L K fuel s).world.beginAnswers
    have ht := (main_shape L K fuel s).1
    have e1 : fnCount Fn.Begin setupCalls = 0 := by decide
    have e2 : fnCount Fn.End setupCalls = 0 := by decide
    have e3 : fnCount Fn.Begin exitCalls = 0 := by decide
    have e4 : fnCount Fn.End exitCalls = 0 := by decide
    have e5 : fnCount Fn.Begin [] = 0 := rfl
    have e6 : fnCount Fn.End [] = 0 := rfl
    refine ⟨?_, ?_, ?_, ?_⟩
    · rw [ht, fnCount_append, fnCount_append, c4, e1]
      cases (main L K fuel s).exit.isSome <;> simp [e3, e5]
    · rw [ht, fnCount_append, fnCount_append, c5, e2]
      cases (main L K fuel s).exit.isSome <;> simp [e4, e6]
    · rw [main_panelBodies]; simp
    · intro i hi
      rw [main_panelBodies, List.getElem?_map, hi]
      rfl

/-- C9 on the library model `noWindow 2`: in its second frame `ImGui::Begin`
answers false, `ImGui::End` is still called, and nothing is called between. -/
theorem C9_end_called_whatever_begin_answers_witness :
    (main (noWindow 2) headerConsts 7 headless).world.beginAnswers[1]? = some false ∧
    fnCount Fn.Begin (main (noWindow 2) headerConsts 7 headless).world.trace = 2 ∧
    fnCount Fn.End (main (noWindow 2) headerConsts 7 headless).world.trace = 2 ∧
    (panelBodies none (main (noWindow 2) headerConsts 7 headless).world.trace)[1]?
      = some ([] : List Call) :=
  ⟨rfl,
   ((C9_end_called_whatever_begin_answers (noWindow 2) headerConsts).2 7 headless).1,
   ((C9_end_called_whatever_begin_answers (noWindow 2) headerConsts).2 7 headless).2.1,
   ((C9_end_called_whatever_begin_answers (noWindow 2) headerConsts).2 7 headless).2.2.2 1
     rfl⟩

/-! ## Bracketing -/

theorem brackets_append (a b : List Call) :
    ∀ st : List Bracket,
      brackets st (a ++ b) = (brackets st a).bind (fun st1 => brackets st1 b) := by
  induction a with
  | nil => intro st; rfl
  | cons c a ih =>
    intro st
    cases h : bracketStep st c with
    | none => simp [brackets, h]
    | some st1 => simp [brackets, h, ih st1]

theorem brackets_frame (K : Consts) (b : Bool) :
    brackets [] (Call.WindowShouldClose :: frameCalls K b) = some [] := by
  cases b <;> rfl

theorem brackets_loopCalls (K : Consts) (bs : List Bool) :
    brackets [] (loopCalls K bs) = some [] := by
  induction bs with
  | nil => rfl
  | cons b bs ih =>
    have h : loopCalls K (b :: bs)
        = (Call.WindowShouldClose :: frameCalls K b) ++ loopCalls K bs := rfl
    rw [h, brackets_append, brackets_frame]
    exact ih

/-- The whole trace of a run keeps the bracket discipline and leaves nothing
open. -/
theorem main_brackets {σ : Type} (L : Lib σ) (K : Consts) (fuel : Nat) (s : σ) :
    brackets [] (main L K fuel s).world.trace = some [] := by
  have h1 : brackets [] setupCalls = some [] := rfl
  have h2 : brackets [] exitCalls = some [] := rfl
  rw [(main_shape L K fuel s).1, brackets_append, h1]
  simp only [Option.some_bind]
  rw [brackets_append, brackets_loopCalls]
  cases (main L K fuel s).exit.isSome
  · rfl
  · exact h2

/-- The discipline is not empty: a closing call with nothing open, a bracket
opened inside itself, brackets closed in the wrong order and an ImGui call
outside a GUI frame are all refused. -/
theorem brackets_refuses :
    brackets [] [Call.End] = none ∧
    brackets [] [Call.BeginDrawing, Call.BeginDrawing] = none ∧
    brackets [] [Call.BeginDrawing, Call.rlImGuiBegin, Call.EndDrawing] = none ∧
    brackets [] [Call.rlImGuiBegin] = none ∧
    brackets [] [Call.BeginDrawing, Call.ShowDemoWindow true] = none ∧
    brackets [] [Call.ClearBackground headerConsts.RAYWHITE] = none :=
  ⟨rfl, rfl, rfl, rfl, rfl, rfl⟩

/-- C10: every prefix of the trace of every run of `main` keeps the bracket
discipline of `bracketStep` (`BeginDrawing`/`EndDrawing` outermost, then
`rlImGuiBegin`/`rlImGuiEnd`, then `ImGui::Begin`/`ImGui::End`, none inside itself,
the ImGui calls only inside a GUI frame, `ClearBackground` and `DrawText` only
inside a drawing frame), and at the end of the run no bracket is open. -/
theorem C10_trace_well_bracketed {σ : Type} (L : Lib σ) (K : Consts) (fuel : Nat) (s : σ) :
    (∀ p : List Call, p <+: (main L K fuel s).world.trace →
      ∃ st : List Bracket, brackets [] p = some st) ∧
    brackets [] (main L K fuel s).world.trace = some [] := by
  refine ⟨?_, main_brackets L K fuel s⟩
  rintro p ⟨q, hq⟩
  have h := main_brackets L K fuel s
  rw [← hq, brackets_append] at h
  cases hp : brackets [] p with
  | none => rw [hp] at h; cases h
  | some st => exact ⟨st, rfl⟩

/-- C10 on the script `closeAtTwo`: the first nine calls of the run end inside
the panel of the first frame, with the three brackets open in order, and the
whole run closes them all. -/
theorem C10_trace_well_bracketed_witness :
    brackets [] ((main (scripted closeAtTwo) headerConsts 3 0).world.trace.take 9)
      = some [Bracket.Panel, Bracket.Gui, Bracket.Drawing] ∧
    (∃ st : List Bracket,
      brackets [] ((main (scripted closeAtTwo) headerConsts 3 0).world.trace.take 9)
        = some st) ∧
    brackets [] (main (scripted closeAtTwo) headerConsts 3 0).world.trace = some [] :=
  ⟨rfl,
   (C10_trace_well_bracketed (scripted closeAtTwo) headerConsts 3 0).1 _
     (List.take_prefix 9 _),
   (C10_trace_well_bracketed (scripted closeAtTwo) headerConsts 3 0).2⟩

/-! ## Independence from the libraries -/

/-- C8: take two runs of `main`, over any two library models with any library
states (whatever `InitWindow` and `rlImGuiSetup` did, whatever is written through
`&open`), in which `WindowShouldClose` gave the same answers and `ImGui::Begin`
gave the same answers.  The two runs make the same calls with the same arguments
and end with the same exit code. -/
theorem C8_trace_depends_on_answers_only {σ₁ σ₂ : Type} (L₁ : Lib σ₁) (L₂ : Lib σ₂)
    (K : Consts) (fuel₁ fuel₂ : Nat) (s₁ : σ₁) (s₂ : σ₂)
    (hclose : (main L₁ K fuel₁ s₁).world.closeAnswers
      = (main L₂ K fuel₂ s₂).world.closeAnswers)
    (hbegin : (main L₁ K fuel₁ s₁).world.beginAnswers
      = (main L₂ K fuel₂ s₂).world.beginAnswers) :
    (main L₁ K fuel₁ s₁).world.trace = (main L₂ K fuel₂ s₂).world.trace ∧
    (main L₁ K fuel₁ s₁).exit = (main L₂ K fuel₂ s₂).exit := by
  obtain ⟨t1, c1, e1, -, -⟩ := main_shape L₁ K fuel₁ s₁
  obtain ⟨t2, c2, e2, -, -⟩ := main_shape L₂ K fuel₂ s₂
  rw [c1, c2, hbegin] at hclose
  have htail := List.append_cancel_left hclose
  have hexit : (main L₁ K fuel₁ s₁).exit = (main L₂ K fuel₂ s₂).exit := by
    rcases e1 with h1 | h1 <;> rcases e2 with h2 | h2 <;> rw [h1, h2] at htail ⊢ <;>
      simp at htail
  refine ⟨?_, hexit⟩
  rw [t1, t2, hbegin, hexit]

/-- C8 on two library models that differ in their state, in what `InitWindow`
does and in what the panels write through `&open`, and give the same answers. -/
theorem C8_trace_depends_on_answers_only_witness :
    (scripted closeAtTwo).ShowDemoWindow true 0 = (true, 0) ∧
    (noWindow 2).ShowDemoWindow true headless = (false, headless) ∧
    (main (scripted closeAtTwo) headerConsts 3 0).world.closeAnswers
      = [false, false, true] ∧
    (main (noWindow 2) headerConsts 7 headless).world.closeAnswers
      = [false, false, true] ∧
    (main (scripted closeAtTwo) headerConsts 3 0).world.trace
      = (main (noWindow 2) headerConsts 7 headless).world.trace ∧
    (main (scripted closeAtTwo) headerConsts 3 0).exit
      = (main (noWindow 2) headerConsts 7 headless).exit :=
  ⟨rfl, rfl, rfl, rfl,
   C8_trace_depends_on_answers_only (scripted closeAtTwo) (noWindow 2) headerConsts 3 7 0
     headless rfl rfl⟩

end RaylibQuickstart
